import Mathlib

/-!
Verification of the bounded-execution and health-evaluation core of the
`rig` HTTP toolkit, as a shallow embedding of `src/health.go` (and, for the
timeout middleware whose implementation is not among the sources, a model
built from the specification).

Time is modelled as a natural number of milliseconds.  The behaviour of a
probe (a Go function of type `CheckFunc` or `CheckFuncContext`) is described
by the moment it returns, the value it returns, and whether it panics
instead of returning.  The nondeterministic `select` between the completion
channel and the timer is determinised in the standard way: the probe wins
the race exactly when it resolves strictly before the deadline fires.
-/

namespace Rig

/-- Observable behaviour of a single probe invocation.  `resolvesAt = none`
means the probe never returns; `result = none` models a `nil` error
(success) and `result = some msg` an error whose `Error()` is `msg`;
`panics = true` means the probe panics instead of returning. -/
structure ProbeBehavior where
  resolvesAt : Option Nat
  result : Option String
  panics : Bool
  deriving DecidableEq

/-- HealthConfig from src/health.go lines 17-29: the global per-check
timeout (milliseconds here) and the parallel flag. -/
structure HealthConfig where
  CheckTimeout : Nat
  Parallel : Bool
  deriving DecidableEq

/-- DefaultHealthConfig from src/health.go lines 31-37: 5 seconds, sequential. -/
def DefaultHealthConfig : HealthConfig := ⟨5000, false⟩

/-- healthCheck from src/health.go lines 39-45.  Exactly one of `check`
(plain probe) and `checkFn` (context-aware probe) is populated by the
registration API.  A context-aware probe is a function of the time at which
the context passed to it is done (`none` = never), mirroring that a Go
`CheckFuncContext` can observe only `ctx.Done()`.  `timeout = 0` means
"use the global timeout" (line 44). -/
structure healthCheck where
  name : String
  check : Option ProbeBehavior
  checkFn : Option (Option Nat → ProbeBehavior)
  timeout : Nat

/-- Health from src/health.go lines 47-53 (the lock is a synchronisation
device with no observable value and is dropped). -/
structure Health where
  readiness : List healthCheck
  liveness : List healthCheck
  config : HealthConfig

/-- NewHealthWithConfig from src/health.go lines 60-67: stores the supplied
configuration as given, with empty check lists. -/
def NewHealthWithConfig (config : HealthConfig) : Health :=
  ⟨[], [], config⟩

/-- NewHealth from src/health.go lines 55-58. -/
def NewHealth : Health := NewHealthWithConfig DefaultHealthConfig

/-- AddReadinessCheck from src/health.go lines 69-75: append, no
uniqueness check. -/
def AddReadinessCheck (h : Health) (name : String) (check : ProbeBehavior) : Health :=
  ⟨h.readiness ++ [⟨name, some check, none, 0⟩], h.liveness, h.config⟩

/-- AddReadinessCheckContext from src/health.go lines 77-89. -/
def AddReadinessCheckContext (h : Health) (name : String)
    (check : Option Nat → ProbeBehavior) : Health :=
  ⟨h.readiness ++ [⟨name, none, some check, 0⟩], h.liveness, h.config⟩

/-- AddReadinessCheckWithTimeout from src/health.go lines 91-97. -/
def AddReadinessCheckWithTimeout (h : Health) (name : String) (timeout : Nat)
    (check : Option Nat → ProbeBehavior) : Health :=
  ⟨h.readiness ++ [⟨name, none, some check, timeout⟩], h.liveness, h.config⟩

/-- AddLivenessCheck from src/health.go lines 99-105. -/
def AddLivenessCheck (h : Health) (name : String) (check : ProbeBehavior) : Health :=
  ⟨h.readiness, h.liveness ++ [⟨name, some check, none, 0⟩], h.config⟩

/-- AddLivenessCheckContext from src/health.go lines 107-113. -/
def AddLivenessCheckContext (h : Health) (name : String)
    (check : Option Nat → ProbeBehavior) : Health :=
  ⟨h.readiness, h.liveness ++ [⟨name, none, some check, 0⟩], h.config⟩

/-- AddLivenessCheckWithTimeout from src/health.go lines 115-121. -/
def AddLivenessCheckWithTimeout (h : Health) (name : String) (timeout : Nat)
    (check : Option Nat → ProbeBehavior) : Health :=
  ⟨h.readiness, h.liveness ++ [⟨name, none, some check, timeout⟩], h.config⟩

/-- checkResult from src/health.go lines 133-138. -/
structure checkResult where
  name : String
  status : String
  failed : Bool
  deriving DecidableEq

/-- The timeout selection of src/health.go lines 189-193: the per-check
override when positive, the global timeout otherwise. -/
def effectiveTimeout (config : HealthConfig) (hc : healthCheck) : Nat :=
  if hc.timeout > 0 then hc.timeout else config.CheckTimeout

/-- The moment `ctx.Done()` fires for the context built by
`context.WithTimeout(parentCtx, timeout)` at src/health.go line 215: the
earlier of the parent cancellation (if any) and the deadline. -/
def ctxDoneAt (parentCancelAt : Option Nat) (timeout : Nat) : Nat :=
  match parentCancelAt with
  | some pc => min pc timeout
  | none => timeout

/-- The select block of src/health.go lines 203-211 and 223-231: the probe
is started on a goroutine feeding a buffered channel, and the caller races
the channel against the deadline.  The probe wins exactly when it resolves
strictly before the deadline.  A probe that panics is NOT recovered inside
the spawned goroutine (lines 199-201 and 219-221 contain no recover), so
the panic escapes the goroutine and, by Go semantics, terminates the
process before any result is produced: modelled as `none`. -/
def raceOutcome (name : String) (pb : ProbeBehavior) (deadline : Nat) : Option checkResult :=
  if pb.panics then
    none
  else
    match pb.resolvesAt with
    | some t =>
      if t < deadline then
        match pb.result with
        | some msg => some ⟨name, "FAIL: " ++ msg, true⟩
        | none => some ⟨name, "OK", false⟩
      else some ⟨name, "FAIL: check timed out", true⟩
    | none => some ⟨name, "FAIL: check timed out", true⟩

/-- runCheck from src/health.go lines 187-232.  For a plain check the
deadline is `time.After(timeout)`; for a context-aware check the derived
context is done at `ctxDoneAt parentCancelAt timeout` and the probe is
handed that context.  A healthCheck with neither field populated
(unreachable through the registration API) would dereference a nil
function in Go: also `none`. -/
def runCheck (config : HealthConfig) (parentCancelAt : Option Nat)
    (hc : healthCheck) : Option checkResult :=
  let timeout := effectiveTimeout config hc
  match hc.check with
  | some pb => raceOutcome hc.name pb timeout
  | none =>
    match hc.checkFn with
    | some f =>
      let d := ctxDoneAt parentCancelAt timeout
      raceOutcome hc.name (f (some d)) d
    | none => none

/-- Go map assignment `response[name] = status` (src/health.go lines 164 and
173) on an association-list model of `map[string]string`: overwrite the
entry if the key is present, append otherwise. -/
def mapInsert (m : List (String × String)) (k v : String) : List (String × String) :=
  match m with
  | [] => [(k, v)]
  | (k', v') :: rest => if k' = k then (k, v) :: rest else (k', v') :: mapInsert rest k v

/-- The result-folding loop of handle, src/health.go lines 162-178: starting
from status 200 and an empty map, each collected result is written into the
map and any failed result forces status 503.  The sequential branch folds
in registration order; the parallel branch folds the same results in channel
arrival order, so the list argument is the fold order.  A crashed check
(panic, modelled `none`) aborts everything. -/
def handleLoop (config : HealthConfig) (parentCancelAt : Option Nat) :
    List healthCheck → Nat → List (String × String) → Option (Nat × List (String × String))
  | [], status, response => some (status, response)
  | hc :: rest, status, response =>
    match runCheck config parentCancelAt hc with
    | none => none
    | some result =>
      handleLoop config parentCancelAt rest
        (if result.failed then 503 else status)
        (mapInsert response result.name result.status)

/-- The fragment of Go `http.StatusText` reachable from handle (only 200
and 503 occur). -/
def StatusText (code : Nat) : String :=
  if code = 200 then "OK"
  else if code = 503 then "Service Unavailable"
  else ""

/-- The JSON body and HTTP code produced at src/health.go lines 180-183. -/
structure HealthReport where
  httpStatus : Nat
  status : String
  checks : List (String × String)
  deriving DecidableEq

/-- handle from src/health.go lines 140-185, applied to the snapshot of the
check list (the list argument; in parallel mode an arbitrary arrival
permutation of the snapshot). -/
def handle (h : Health) (parentCancelAt : Option Nat)
    (checks : List healthCheck) : Option HealthReport :=
  match handleLoop h.config parentCancelAt checks 200 [] with
  | none => none
  | some (status, response) => some ⟨status, StatusText status, response⟩

/-- LiveHandler from src/health.go lines 123-126. -/
def LiveHandler (h : Health) (parentCancelAt : Option Nat) : Option HealthReport :=
  handle h parentCancelAt h.liveness

/-- ReadyHandler from src/health.go lines 128-131. -/
def ReadyHandler (h : Health) (parentCancelAt : Option Nat) : Option HealthReport :=
  handle h parentCancelAt h.readiness

/-- Whether some check in the list produces a failed outcome. -/
def anyFailed (config : HealthConfig) (parentCancelAt : Option Nat)
    (cs : List healthCheck) : Bool :=
  cs.any fun hc =>
    match runCheck config parentCancelAt hc with
    | some r => r.failed
    | none => false

lemma raceOutcome_name (name : String) (pb : ProbeBehavior) (d : Nat) (r : checkResult)
    (h : raceOutcome name pb d = some r) : r.name = name := by
  unfold raceOutcome at h
  split at h
  · cases h
  · split at h
    · split at h
      · split at h
        · cases h; rfl
        · cases h; rfl
      · cases h; rfl
    · cases h; rfl

lemma runCheck_name (config : HealthConfig) (p : Option Nat) (hc : healthCheck)
    (r : checkResult) (h : runCheck config p hc = some r) : r.name = hc.name := by
  simp only [runCheck] at h
  split at h
  · exact raceOutcome_name _ _ _ _ h
  · split at h
    · exact raceOutcome_name _ _ _ _ h
    · cases h

lemma handleLoop_status (config : HealthConfig) (p : Option Nat) :
    ∀ (cs : List healthCheck) (status : Nat) (resp : List (String × String))
      (out : Nat × List (String × String)),
      handleLoop config p cs status resp = some out →
      out.1 = if anyFailed config p cs then 503 else status := by
  intro cs
  induction cs with
  | nil =>
    intro status resp out h
    simp only [handleLoop, Option.some.injEq] at h
    subst h
    simp [anyFailed]
  | cons hc rest ih =>
    intro status resp out h
    simp only [handleLoop] at h
    cases hrc : runCheck config p hc with
    | none => rw [hrc] at h; cases h
    | some r =>
      rw [hrc] at h
      have hrest := ih _ _ _ h
      have ha : anyFailed config p (hc :: rest) = (r.failed || anyFailed config p rest) := by
        simp [anyFailed, List.any_cons, hrc]
      rw [ha, hrest]
      cases hf : r.failed <;> cases hb : anyFailed config p rest <;> simp [hf, hb]

lemma anyFailed_eq_false_iff (config : HealthConfig) (p : Option Nat) (cs : List healthCheck) :
    anyFailed config p cs = false ↔
      ∀ hc ∈ cs, ∀ r, runCheck config p hc = some r → r.failed = false := by
  induction cs with
  | nil => simp [anyFailed]
  | cons hc rest ih =>
    constructor
    · intro h x hx r hr
      simp only [anyFailed, List.any_cons, Bool.or_eq_false_iff] at h
      rcases List.mem_cons.mp hx with rfl | hx'
      · have h1 := h.1
        rw [hr] at h1
        exact h1
      · exact (ih.mp h.2) x hx' r hr
    · intro H
      simp only [anyFailed, List.any_cons, Bool.or_eq_false_iff]
      refine ⟨?_, ih.mpr fun x hx r hr => H x (List.mem_cons_of_mem _ hx) r hr⟩
      cases hrc : runCheck config p hc with
      | none => rfl
      | some r => exact H hc (List.mem_cons_self _ _) r hrc

/-- C1: the aggregate status of a liveness or readiness report is "OK"
exactly when every individual check outcome of the evaluation has
failed = false, and otherwise "Service Unavailable"; the accompanying HTTP
status code is 200 exactly for "OK" and 503 exactly for "Service
Unavailable". -/
theorem handle_aggregate_ok_iff (h : Health) (p : Option Nat) (cs : List healthCheck)
    (rep : HealthReport) (hrep : handle h p cs = some rep) :
    (rep.status = "OK" ↔
      ∀ hc ∈ cs, ∀ r, runCheck h.config p hc = some r → r.failed = false) ∧
    (rep.status = "OK" ∨ rep.status = "Service Unavailable") ∧
    (rep.httpStatus = 200 ↔ rep.status = "OK") ∧
    (rep.httpStatus = 503 ↔ rep.status = "Service Unavailable") := by
  simp only [handle] at hrep
  cases hl : handleLoop h.config p cs 200 [] with
  | none => rw [hl] at hrep; cases hrep
  | some out =>
    rw [hl] at hrep
    cases out with
    | mk st resp =>
      simp only [Option.some.injEq] at hrep
      subst hrep
      have hst := handleLoop_status h.config p cs 200 [] (st, resp) hl
      simp only at hst
      cases haf : anyFailed h.config p cs with
      | false =>
        rw [haf] at hst
        have hstv : st = 200 := by simpa using hst
        subst hstv
        have hO : StatusText 200 = "OK" := by decide
        refine ⟨?_, Or.inl hO, ?_, ?_⟩
        · exact ⟨fun _ => (anyFailed_eq_false_iff h.config p cs).mp haf, fun _ => hO⟩
        · exact ⟨fun _ => hO, fun _ => rfl⟩
        · constructor
          · intro h503
            exact absurd h503 (by norm_num)
          · intro hsu
            exact absurd (show ("OK" : String) = "Service Unavailable" from hsu) (by decide)
      | true =>
        rw [haf] at hst
        have hstv : st = 503 := by simpa using hst
        subst hstv
        have hforall : ¬ ∀ hc ∈ cs, ∀ r, runCheck h.config p hc = some r → r.failed = false := by
          intro hall
          have hfalse := (anyFailed_eq_false_iff h.config p cs).mpr hall
          rw [haf] at hfalse
          cases hfalse
        have hSU : StatusText 503 = "Service Unavailable" := by decide
        refine ⟨?_, Or.inr hSU, ?_, ?_⟩
        · constructor
          · intro hok
            exact absurd (show ("Service Unavailable" : String) = "OK" from hok) (by decide)
          · intro hall
            exact absurd hall hforall
        · constructor
          · intro h200
            exact absurd h200 (by norm_num)
          · intro hok
            exact absurd (show ("Service Unavailable" : String) = "OK" from hok) (by decide)
        · exact ⟨fun _ => hSU, fun _ => rfl⟩

/-- Witness for C1 at a concrete two-check collection with one failing
check: the evaluation is concrete and the aggregate is Service
Unavailable / 503. -/
theorem handle_aggregate_ok_iff_witness :
    ((⟨503, "Service Unavailable", [("db", "OK"), ("cache", "FAIL: connection refused")]⟩ :
        HealthReport).status = "OK" ↔
      ∀ hc ∈ [(⟨"db", some ⟨some 1, none, false⟩, none, 0⟩ : healthCheck),
              ⟨"cache", some ⟨some 1, some "connection refused", false⟩, none, 0⟩],
        ∀ r, runCheck DefaultHealthConfig none hc = some r → r.failed = false) ∧
    ((⟨503, "Service Unavailable", [("db", "OK"), ("cache", "FAIL: connection refused")]⟩ :
        HealthReport).status = "OK" ∨
      (⟨503, "Service Unavailable", [("db", "OK"), ("cache", "FAIL: connection refused")]⟩ :
        HealthReport).status = "Service Unavailable") ∧
    ((⟨503, "Service Unavailable", [("db", "OK"), ("cache", "FAIL: connection refused")]⟩ :
        HealthReport).httpStatus = 200 ↔
      (⟨503, "Service Unavailable", [("db", "OK"), ("cache", "FAIL: connection refused")]⟩ :
        HealthReport).status = "OK") ∧
    ((⟨503, "Service Unavailable", [("db", "OK"), ("cache", "FAIL: connection refused")]⟩ :
        HealthReport).httpStatus = 503 ↔
      (⟨503, "Service Unavailable", [("db", "OK"), ("cache", "FAIL: connection refused")]⟩ :
        HealthReport).status = "Service Unavailable") :=
  handle_aggregate_ok_iff NewHealth none
    [⟨"db", some ⟨some 1, none, false⟩, none, 0⟩,
     ⟨"cache", some ⟨some 1, some "connection refused", false⟩, none, 0⟩]
    ⟨503, "Service Unavailable", [("db", "OK"), ("cache", "FAIL: connection refused")]⟩
    (by rfl)

/-- C7: an evaluation of a collection with zero registered checks returns
status "OK" with an empty checks map and HTTP status 200. -/
theorem empty_collection_ok (h : Health) (p : Option Nat)
    (hlive : h.liveness = []) (hready : h.readiness = []) :
    LiveHandler h p = some ⟨200, "OK", []⟩ ∧
    ReadyHandler h p = some ⟨200, "OK", []⟩ := by
  constructor <;>
    simp [LiveHandler, ReadyHandler, handle, handleLoop, hlive, hready, StatusText]

/-- Witness for C7: a freshly constructed Health manager has no checks and
both handlers report OK / 200 / empty map. -/
theorem empty_collection_ok_witness :
    LiveHandler NewHealth none = some ⟨200, "OK", []⟩ ∧
    ReadyHandler NewHealth none = some ⟨200, "OK", []⟩ :=
  empty_collection_ok NewHealth none rfl rfl

/-- C5: the effective timeout of a check is the per-check override when one
is set (positive) and the global CheckTimeout otherwise; a context probe
registered with a 300ms override that resolves successfully at 100ms is
reported "OK" even though the global timeout is only 50ms. -/
theorem effectiveTimeout_override_beats_global (config : HealthConfig) :
    (∀ hc : healthCheck, 0 < hc.timeout → effectiveTimeout config hc = hc.timeout) ∧
    (∀ hc : healthCheck, hc.timeout = 0 → effectiveTimeout config hc = config.CheckTimeout) ∧
    (∀ name : String,
      runCheck ⟨50, false⟩ none ⟨name, none, some (fun _ => ⟨some 100, none, false⟩), 300⟩ =
        some ⟨name, "OK", false⟩) := by
  refine ⟨?_, ?_, ?_⟩
  · intro hc hpos
    simp [effectiveTimeout, hpos]
  · intro hc h0
    simp [effectiveTimeout, h0]
  · intro name
    norm_num [runCheck, raceOutcome, effectiveTimeout, ctxDoneAt]

/-- Witness for C5 at concrete checks: the override governs, the global
governs absent an override, and the 300ms/100ms/50ms example is OK. -/
theorem effectiveTimeout_override_beats_global_witness :
    effectiveTimeout ⟨50, false⟩
        ⟨"db", none, some (fun _ => ⟨some 100, none, false⟩), 300⟩ = 300 ∧
    effectiveTimeout ⟨50, false⟩ ⟨"db", some ⟨some 1, none, false⟩, none, 0⟩ = 50 ∧
    runCheck ⟨50, false⟩ none ⟨"db", none, some (fun _ => ⟨some 100, none, false⟩), 300⟩ =
      some ⟨"db", "OK", false⟩ := by
  have h := effectiveTimeout_override_beats_global ⟨50, false⟩
  exact ⟨h.1 _ (by norm_num), h.2.1 _ rfl, h.2.2 "db"⟩

/-- C10: NewHealthWithConfig stores the supplied configuration unchanged
with no defaulting; under a zero-valued HealthConfig every check without a
positive per-check override has effective timeout 0 and is reported as
timed out immediately (whatever and whenever its probe would answer); the
5-second CheckTimeout default exists only through NewHealth /
DefaultHealthConfig. -/
theorem newHealthWithConfig_no_defaulting (config : HealthConfig) (p : Option Nat)
    (hc : healthCheck) (pb : ProbeBehavior)
    (hov : hc.timeout = 0) (hchk : hc.check = some pb) (hpan : pb.panics = false) :
    (NewHealthWithConfig config).config = config ∧
    (NewHealthWithConfig config).readiness = [] ∧
    (NewHealthWithConfig config).liveness = [] ∧
    effectiveTimeout ⟨0, false⟩ hc = 0 ∧
    runCheck ⟨0, false⟩ p hc = some ⟨hc.name, "FAIL: check timed out", true⟩ ∧
    NewHealth = NewHealthWithConfig DefaultHealthConfig ∧
    DefaultHealthConfig.CheckTimeout = 5000 := by
  have heff : effectiveTimeout ⟨0, false⟩ hc = 0 := by
    simp [effectiveTimeout, hov]
  refine ⟨rfl, rfl, rfl, heff, ?_, rfl, rfl⟩
  simp only [runCheck, hchk, heff]
  unfold raceOutcome
  rw [hpan]
  simp only [Bool.false_eq_true, if_false]
  cases hra : pb.resolvesAt with
  | none => rfl
  | some t => simp [Nat.not_lt_zero]

/-- Witness for C10: a concrete check with no override under the
zero-valued configuration times out immediately even though its probe
would succeed instantly. -/
theorem newHealthWithConfig_no_defaulting_witness :
    (NewHealthWithConfig ⟨0, false⟩).config = (⟨0, false⟩ : HealthConfig) ∧
    (NewHealthWithConfig ⟨0, false⟩).readiness = [] ∧
    (NewHealthWithConfig ⟨0, false⟩).liveness = [] ∧
    effectiveTimeout ⟨0, false⟩ ⟨"db", some ⟨some 0, none, false⟩, none, 0⟩ = 0 ∧
    runCheck ⟨0, false⟩ none ⟨"db", some ⟨some 0, none, false⟩, none, 0⟩ =
      some ⟨"db", "FAIL: check timed out", true⟩ ∧
    NewHealth = NewHealthWithConfig DefaultHealthConfig ∧
    DefaultHealthConfig.CheckTimeout = 5000 :=
  newHealthWithConfig_no_defaulting ⟨0, false⟩ none
    ⟨"db", some ⟨some 0, none, false⟩, none, 0⟩ ⟨some 0, none, false⟩ rfl rfl rfl

lemma ctxDoneAt_le (p : Option Nat) (timeout : Nat) : ctxDoneAt p timeout ≤ timeout := by
  cases p with
  | none => exact Nat.le_refl _
  | some pc => exact Nat.min_le_right _ _

lemma raceOutcome_timeout (name : String) (pb : ProbeBehavior) (d : Nat)
    (hpan : pb.panics = false)
    (hres : ∀ t, pb.resolvesAt = some t → d ≤ t) :
    raceOutcome name pb d = some ⟨name, "FAIL: check timed out", true⟩ := by
  unfold raceOutcome
  rw [hpan]
  simp only [Bool.false_eq_true, if_false]
  cases hra : pb.resolvesAt with
  | none => rfl
  | some t =>
    have hnlt : ¬ t < d := Nat.not_lt.mpr (hres t hra)
    simp [hnlt]

lemma raceOutcome_ok (name : String) (pb : ProbeBehavior) (d t : Nat)
    (hpan : pb.panics = false) (hra : pb.resolvesAt = some t)
    (hlt : t < d) (hsucc : pb.result = none) :
    raceOutcome name pb d = some ⟨name, "OK", false⟩ := by
  simp only [raceOutcome, hpan, Bool.false_eq_true, if_false, hra, if_pos hlt, hsucc]

lemma raceOutcome_fail (name : String) (pb : ProbeBehavior) (d t : Nat) (msg : String)
    (hpan : pb.panics = false) (hra : pb.resolvesAt = some t)
    (hlt : t < d) (herr : pb.result = some msg) :
    raceOutcome name pb d = some ⟨name, "FAIL: " ++ msg, true⟩ := by
  simp only [raceOutcome, hpan, Bool.false_eq_true, if_false, hra, if_pos hlt, herr]

/-- C4: a check whose probe does not resolve within the effective timeout
is reported "FAIL: check timed out" and marked failed, never as success,
regardless of what the probe would eventually return (its late error or
success value is discarded) — for plain probes and for context-aware
probes alike. -/
theorem runCheck_probe_timeout (config : HealthConfig) (p : Option Nat) (hc : healthCheck) :
    (∀ pb : ProbeBehavior, hc.check = some pb → pb.panics = false →
      (∀ t, pb.resolvesAt = some t → effectiveTimeout config hc ≤ t) →
      runCheck config p hc = some ⟨hc.name, "FAIL: check timed out", true⟩) ∧
    (∀ f : Option Nat → ProbeBehavior, hc.check = none → hc.checkFn = some f →
      ∀ pb : ProbeBehavior,
        f (some (ctxDoneAt p (effectiveTimeout config hc))) = pb → pb.panics = false →
        (∀ t, pb.resolvesAt = some t → effectiveTimeout config hc ≤ t) →
        runCheck config p hc = some ⟨hc.name, "FAIL: check timed out", true⟩) := by
  constructor
  · intro pb hchk hpan hres
    simp only [runCheck, hchk]
    exact raceOutcome_timeout _ _ _ hpan hres
  · intro f h1 h2 pb hpb hpan hres
    simp only [runCheck, h1, h2]
    rw [hpb]
    exact raceOutcome_timeout _ _ _ hpan
      (fun t ht => Nat.le_trans (ctxDoneAt_le p _) (hres t ht))

/-- Witness for C4: a probe sleeping 200ms under a 50ms global timeout
with no override is reported as timed out, both as a plain probe and as a
context-aware probe, although the probe would eventually succeed. -/
theorem runCheck_probe_timeout_witness :
    runCheck ⟨50, false⟩ none ⟨"slow", some ⟨some 200, none, false⟩, none, 0⟩ =
      some ⟨"slow", "FAIL: check timed out", true⟩ ∧
    runCheck ⟨50, false⟩ none ⟨"slowCtx", none, some (fun _ => ⟨some 200, none, false⟩), 0⟩ =
      some ⟨"slowCtx", "FAIL: check timed out", true⟩ := by
  have h1 := (runCheck_probe_timeout ⟨50, false⟩ none
    ⟨"slow", some ⟨some 200, none, false⟩, none, 0⟩).1
  have h2 := (runCheck_probe_timeout ⟨50, false⟩ none
    ⟨"slowCtx", none, some (fun _ => ⟨some 200, none, false⟩), 0⟩).2
  refine ⟨h1 _ rfl rfl ?_, h2 _ rfl rfl _ rfl rfl ?_⟩
  · intro t ht
    have ht' : some 200 = some t := ht
    injection ht' with hv
    subst hv
    decide
  · intro t ht
    have ht' : some 200 = some t := ht
    injection ht' with hv
    subst hv
    decide

/-- C6: the per-check status string is exactly "OK" when the probe
succeeds, "FAIL: " followed by the probe error message verbatim when the
probe errors, and "FAIL: check timed out" when it times out — for plain
and context-aware checks. -/
theorem runCheck_outcome_mapping (config : HealthConfig) (p : Option Nat) (hc : healthCheck) :
    (∀ pb t, hc.check = some pb → pb.panics = false → pb.resolvesAt = some t →
      t < effectiveTimeout config hc → pb.result = none →
      runCheck config p hc = some ⟨hc.name, "OK", false⟩) ∧
    (∀ pb t msg, hc.check = some pb → pb.panics = false → pb.resolvesAt = some t →
      t < effectiveTimeout config hc → pb.result = some msg →
      runCheck config p hc = some ⟨hc.name, "FAIL: " ++ msg, true⟩) ∧
    (∀ pb, hc.check = some pb → pb.panics = false →
      (∀ t, pb.resolvesAt = some t → effectiveTimeout config hc ≤ t) →
      runCheck config p hc = some ⟨hc.name, "FAIL: check timed out", true⟩) ∧
    (∀ f pb t, hc.check = none → hc.checkFn = some f →
      f (some (ctxDoneAt p (effectiveTimeout config hc))) = pb →
      pb.panics = false → pb.resolvesAt = some t →
      t < ctxDoneAt p (effectiveTimeout config hc) → pb.result = none →
      runCheck config p hc = some ⟨hc.name, "OK", false⟩) ∧
    (∀ f pb t msg, hc.check = none → hc.checkFn = some f →
      f (some (ctxDoneAt p (effectiveTimeout config hc))) = pb →
      pb.panics = false → pb.resolvesAt = some t →
      t < ctxDoneAt p (effectiveTimeout config hc) → pb.result = some msg →
      runCheck config p hc = some ⟨hc.name, "FAIL: " ++ msg, true⟩) ∧
    (∀ f pb, hc.check = none → hc.checkFn = some f →
      f (some (ctxDoneAt p (effectiveTimeout config hc))) = pb →
      pb.panics = false →
      (∀ t, pb.resolvesAt = some t → ctxDoneAt p (effectiveTimeout config hc) ≤ t) →
      runCheck config p hc = some ⟨hc.name, "FAIL: check timed out", true⟩) := by
  refine ⟨?_, ?_, ?_, ?_, ?_, ?_⟩
  · intro pb t hchk hpan hra hlt hsucc
    simp only [runCheck, hchk]
    exact raceOutcome_ok _ _ _ _ hpan hra hlt hsucc
  · intro pb t msg hchk hpan hra hlt herr
    simp only [runCheck, hchk]
    exact raceOutcome_fail _ _ _ _ _ hpan hra hlt herr
  · intro pb hchk hpan hres
    simp only [runCheck, hchk]
    exact raceOutcome_timeout _ _ _ hpan hres
  · intro f pb t h1 h2 hpb hpan hra hlt hsucc
    simp only [runCheck, h1, h2]
    rw [hpb]
    exact raceOutcome_ok _ _ _ _ hpan hra hlt hsucc
  · intro f pb t msg h1 h2 hpb hpan hra hlt herr
    simp only [runCheck, h1, h2]
    rw [hpb]
    exact raceOutcome_fail _ _ _ _ _ hpan hra hlt herr
  · intro f pb h1 h2 hpb hpan hres
    simp only [runCheck, h1, h2]
    rw [hpb]
    exact raceOutcome_timeout _ _ _ hpan hres

/-- Witness for C6: the three status strings at concrete plain checks —
instant success, instant failure with message "connection refused", and a
200ms probe under a 50ms timeout. -/
theorem runCheck_outcome_mapping_witness :
    runCheck ⟨50, false⟩ none ⟨"ok", some ⟨some 1, none, false⟩, none, 0⟩ =
      some ⟨"ok", "OK", false⟩ ∧
    runCheck ⟨50, false⟩ none ⟨"bad", some ⟨some 1, some "connection refused", false⟩, none, 0⟩ =
      some ⟨"bad", "FAIL: " ++ "connection refused", true⟩ ∧
    runCheck ⟨50, false⟩ none ⟨"slow", some ⟨some 200, none, false⟩, none, 0⟩ =
      some ⟨"slow", "FAIL: check timed out", true⟩ := by
  refine ⟨?_, ?_, ?_⟩
  · exact (runCheck_outcome_mapping ⟨50, false⟩ none
      ⟨"ok", some ⟨some 1, none, false⟩, none, 0⟩).1 _ 1 rfl rfl rfl (by decide) rfl
  · exact (runCheck_outcome_mapping ⟨50, false⟩ none
      ⟨"bad", some ⟨some 1, some "connection refused", false⟩, none, 0⟩).2.1
      _ 1 "connection refused" rfl rfl rfl (by decide) rfl
  · refine (runCheck_outcome_mapping ⟨50, false⟩ none
      ⟨"slow", some ⟨some 200, none, false⟩, none, 0⟩).2.2.1 _ rfl rfl ?_
    intro t ht
    have ht' : some 200 = some t := ht
    injection ht' with hv
    subst hv
    decide

/-- C9: for a context-aware check, cancellation of the parent context
before the probe returns yields the report entry "FAIL: check timed out"
with failed = true — the very same entry produced when the per-check
deadline expires without any parent cancellation, so the two causes are
indistinguishable to a consumer of the report. -/
theorem runCheck_parent_cancel_timed_out (config : HealthConfig) (hc : healthCheck)
    (f : Option Nat → ProbeBehavior) (pc : Nat)
    (h1 : hc.check = none) (h2 : hc.checkFn = some f)
    (hpan : (f (some (ctxDoneAt (some pc) (effectiveTimeout config hc)))).panics = false)
    (hres : ∀ t,
      (f (some (ctxDoneAt (some pc) (effectiveTimeout config hc)))).resolvesAt = some t →
      pc < t) :
    runCheck config (some pc) hc = some ⟨hc.name, "FAIL: check timed out", true⟩ ∧
    (∀ (hcd : healthCheck) (fd : Option Nat → ProbeBehavior),
      hcd.name = hc.name → hcd.check = none → hcd.checkFn = some fd →
      (fd (some (effectiveTimeout config hcd))).panics = false →
      (∀ t, (fd (some (effectiveTimeout config hcd))).resolvesAt = some t →
        effectiveTimeout config hcd ≤ t) →
      runCheck config none hcd = runCheck config (some pc) hc) := by
  have hmain : runCheck config (some pc) hc =
      some ⟨hc.name, "FAIL: check timed out", true⟩ := by
    simp only [runCheck, h1, h2]
    refine raceOutcome_timeout _ _ _ hpan ?_
    intro t ht
    have hle : ctxDoneAt (some pc) (effectiveTimeout config hc) ≤ pc := Nat.min_le_left _ _
    exact Nat.le_trans hle (Nat.le_of_lt (hres t ht))
  refine ⟨hmain, ?_⟩
  intro hcd fd hname h1d h2d hpand hresd
  have hd : runCheck config none hcd =
      some ⟨hcd.name, "FAIL: check timed out", true⟩ := by
    simp only [runCheck, h1d, h2d]
    exact raceOutcome_timeout _ _ _ hpand hresd
  rw [hd, hmain, hname]

/-- Witness for C9: a cooperative probe that would succeed at 200ms, under
a 5000ms effective timeout, with the parent request cancelled at 20ms, is
reported as timed out; a deadline-expiry entry for the same name is
identical. -/
theorem runCheck_parent_cancel_timed_out_witness :
    runCheck ⟨5000, false⟩ (some 20)
        ⟨"db", none, some (fun _ => ⟨some 200, none, false⟩), 0⟩ =
      some ⟨"db", "FAIL: check timed out", true⟩ ∧
    runCheck ⟨5000, false⟩ none ⟨"db", none, some (fun _ => ⟨none, none, false⟩), 0⟩ =
      runCheck ⟨5000, false⟩ (some 20)
        ⟨"db", none, some (fun _ => ⟨some 200, none, false⟩), 0⟩ := by
  have h := runCheck_parent_cancel_timed_out ⟨5000, false⟩
    ⟨"db", none, some (fun _ => ⟨some 200, none, false⟩), 0⟩
    (fun _ => ⟨some 200, none, false⟩) 20 rfl rfl rfl ?_
  · refine ⟨h.1, h.2 _ (fun _ => ⟨none, none, false⟩) rfl rfl rfl rfl ?_⟩
    intro t ht
    exact absurd (show (none : Option Nat) = some t from ht) (by simp)
  · intro t ht
    have ht' : some 200 = some t := ht
    injection ht' with hv
    subst hv
    decide

/-- C8: when two checks are registered under one name, a sequential
evaluation runs both and folds both outcomes into the aggregate, but only
the later entry survives in the name-keyed map; a failure of the
overwritten earlier check still forces Service Unavailable even though its
own entry is lost. -/
theorem duplicate_name_overwrite (h : Health) (p : Option Nat)
    (c1 c2 : healthCheck) (r1 r2 : checkResult)
    (hname : c1.name = c2.name)
    (h1 : runCheck h.config p c1 = some r1) (h2 : runCheck h.config p c2 = some r2)
    (hf1 : r1.failed = true) (hf2 : r2.failed = false) :
    handle h p [c1, c2] = some ⟨503, "Service Unavailable", [(c2.name, r2.status)]⟩ := by
  have hn1 : r1.name = c1.name := runCheck_name _ _ _ _ h1
  have hn2 : r2.name = c2.name := runCheck_name _ _ _ _ h2
  have hkey : r1.name = r2.name := by rw [hn1, hn2, hname]
  simp [handle, handleLoop, h1, h2, hf1, hf2, mapInsert, hkey, hn2, StatusText]

/-- Witness for C8: a failing check and a succeeding check both named
"db": the report is Service Unavailable / 503 while the surviving map
entry shows only the later "OK". -/
theorem duplicate_name_overwrite_witness :
    handle NewHealth none
      [⟨"db", some ⟨some 1, some "down", false⟩, none, 0⟩,
       ⟨"db", some ⟨some 1, none, false⟩, none, 0⟩] =
      some ⟨503, "Service Unavailable", [("db", "OK")]⟩ :=
  duplicate_name_overwrite NewHealth none
    ⟨"db", some ⟨some 1, some "down", false⟩, none, 0⟩
    ⟨"db", some ⟨some 1, none, false⟩, none, 0⟩
    ⟨"db", "FAIL: " ++ "down", true⟩ ⟨"db", "OK", false⟩
    rfl (by rfl) (by rfl) rfl rfl

/-- C3 is REFUTED by the code: the goroutines spawned at src/health.go
lines 199-201 and 219-221 contain no recover, so a panicking probe is not
converted into a failure outcome — the panic escapes the goroutine, which
in Go terminates the whole process; the evaluation aborts with no report
and the remaining checks of the same evaluation are never reported.  The
embedding accordingly evaluates to none (no result, no report) on a
panicking probe, even with a second healthy check registered. -/
theorem panicking_probe_aborts_evaluation :
    runCheck DefaultHealthConfig none ⟨"boom", some ⟨some 0, none, true⟩, none, 0⟩ = none ∧
    handle NewHealth none
      [⟨"boom", some ⟨some 0, none, true⟩, none, 0⟩,
       ⟨"db", some ⟨some 0, none, false⟩, none, 0⟩] = none := by
  exact ⟨rfl, rfl⟩

/-- Modelled from the spec: the implementation of the Timeout middleware
(`Timeout` / `TimeoutWithConfig`, the TimeoutGuard of spec section 4.2) is
not among the sources — only its tests are — so the guard is modelled from
the specification text.  A committed HTTP response is its status code plus
a JSON object body. -/
structure Response where
  code : Nat
  body : List (String × String)
  deriving DecidableEq

/-- Modelled from the spec: TimeoutConfig — a duration and an optional
fallback response producer; none selects the default fallback. -/
structure TimeoutConfig where
  Timeout : Nat
  OnTimeout : Option Response
  deriving DecidableEq

/-- Modelled from the spec: the default fallback — a generic request timed
out JSON body with a gateway-timeout-class status code (504, as the tests
in src/unnamed/part_006 expect). -/
def defaultTimeoutResponse : Response :=
  ⟨504, [("error", "request timed out")]⟩

/-- Modelled from the spec: the fallback response the guard commits on
timeout. -/
def fallbackResponse (cfg : TimeoutConfig) : Response :=
  match cfg.OnTimeout with
  | some r => r
  | none => defaultTimeoutResponse

/-- Modelled from the spec: ResponseWriteState — the per-request written
flag shared under a lock between the two racing paths, kept here together
with the committed response and the number of successful commits (the
bookkeeping that makes "exactly once" stateable). -/
structure WriteState where
  written : Bool
  committed : Option Response
  commits : Nat
  deriving DecidableEq

/-- The write state before any path has responded. -/
def initialWriteState : WriteState := ⟨false, none, 0⟩

/-- Modelled from the spec: compare-and-commit under the shared lock — the
first party to observe written = false and set it to true wins the right
to respond; every later write attempt is a no-op that does not alter the
already-committed response. -/
def commitResponse (s : WriteState) (r : Response) : WriteState :=
  if s.written then s else ⟨true, some r, s.commits + 1⟩

/-- Modelled from the spec: what the guard returns to its caller — the
inner handler outcome, the result of the onTimeout fallback, or the
ambient cancellation error. -/
inductive GuardReturn where
  | innerOutcome
  | onTimeoutResult
  | ctxErr
  deriving DecidableEq

/-- Modelled from the spec: how the deadline race resolved for one guarded
request.  completed: the inner handler finished before the deadline fired.
timedOutAfterWrite: the guard observed TimedOut but the handler had raced
past the deadline and already written.  timedOutBeforeWrite late: the
guard observed TimedOut with nothing written yet; `late` records whether
the abandoned handler still attempts a write afterwards. -/
inductive RaceResult where
  | completed
  | timedOutAfterWrite
  | timedOutBeforeWrite (late : Bool)
  deriving DecidableEq

/-- Modelled from the spec: resolution of the TimedOut branch — consult
the written flag under its lock; if nothing has been written invoke the
fallback, else write nothing more and return the ambient cancellation
error. -/
def onTimedOut (cfg : TimeoutConfig) (s : WriteState) : WriteState × GuardReturn :=
  if s.written then (s, GuardReturn.ctxErr)
  else (commitResponse s (fallbackResponse cfg), GuardReturn.onTimeoutResult)

/-- Modelled from the spec: one full guarded request.  On Completed the
inner handler outcome is returned unchanged; on TimedOut the write state
is consulted as in onTimedOut; a late write attempted by the abandoned
handler goes through the same commit gate and cannot displace the
committed response. -/
def timeoutGuardRun (cfg : TimeoutConfig) (race : RaceResult) (inner : Response) :
    WriteState × GuardReturn :=
  match race with
  | RaceResult.completed =>
    (commitResponse initialWriteState inner, GuardReturn.innerOutcome)
  | RaceResult.timedOutAfterWrite =>
    onTimedOut cfg (commitResponse initialWriteState inner)
  | RaceResult.timedOutBeforeWrite late =>
    let resolved := onTimedOut cfg initialWriteState
    ((if late then commitResponse resolved.1 inner else resolved.1), resolved.2)

/-- C2: a guarded request commits at most one response; when the inner
handler has not committed within the duration, the fallback (by default a
504 with JSON body error = request timed out) is committed exactly once
and a late write by the handler does not alter it; when the handler had
already written before the guard observed the timeout, the guard writes
nothing more and returns the ambient cancellation error. -/
theorem timeoutGuard_single_commit (cfg : TimeoutConfig) (race : RaceResult)
    (inner : Response) :
    (timeoutGuardRun cfg race inner).1.commits ≤ 1 ∧
    (∀ late, race = RaceResult.timedOutBeforeWrite late →
      (timeoutGuardRun cfg race inner).1.committed = some (fallbackResponse cfg) ∧
      (timeoutGuardRun cfg race inner).1.commits = 1 ∧
      (timeoutGuardRun cfg race inner).2 = GuardReturn.onTimeoutResult) ∧
    (race = RaceResult.timedOutAfterWrite →
      (timeoutGuardRun cfg race inner).1.committed = some inner ∧
      (timeoutGuardRun cfg race inner).1.commits = 1 ∧
      (timeoutGuardRun cfg race inner).2 = GuardReturn.ctxErr) ∧
    (race = RaceResult.completed →
      (timeoutGuardRun cfg race inner).1.committed = some inner ∧
      (timeoutGuardRun cfg race inner).2 = GuardReturn.innerOutcome) ∧
    (cfg.OnTimeout = none →
      fallbackResponse cfg = ⟨504, [("error", "request timed out")]⟩) := by
  have hdef : ∀ hnone : cfg.OnTimeout = none,
      fallbackResponse cfg = ⟨504, [("error", "request timed out")]⟩ := by
    intro hnone
    simp [fallbackResponse, hnone, defaultTimeoutResponse]
  rcases race with _ | _ | late
  · refine ⟨by simp [timeoutGuardRun, commitResponse, initialWriteState], ?_, ?_, ?_, hdef⟩
    · intro late hlate
      cases hlate
    · intro hlate
      cases hlate
    · intro _
      simp [timeoutGuardRun, commitResponse, initialWriteState]
  · refine ⟨?_, ?_, ?_, ?_, hdef⟩
    · simp [timeoutGuardRun, onTimedOut, commitResponse, initialWriteState]
    · intro late hlate
      cases hlate
    · intro _
      simp [timeoutGuardRun, onTimedOut, commitResponse, initialWriteState]
    · intro hlate
      cases hlate
  · refine ⟨?_, ?_, ?_, ?_, hdef⟩
    · cases late <;>
        simp [timeoutGuardRun, onTimedOut, commitResponse, initialWriteState]
    · intro late' hlate'
      cases hlate'
      cases late <;>
        simp [timeoutGuardRun, onTimedOut, commitResponse, initialWriteState]
    · intro hlate
      cases hlate
    · intro hlate
      cases hlate

/-- Witness for C2, mirroring TestTimeout_HandlerExceedsTimeout: a 50ms
guard around a handler that would write a 200 at 200ms commits exactly the
default 504 fallback once; in the raced-past case the guard returns the
cancellation error without writing. -/
theorem timeoutGuard_single_commit_witness :
    (timeoutGuardRun ⟨50, none⟩ (RaceResult.timedOutBeforeWrite true)
        ⟨200, [("status", "completed")]⟩).1.committed =
      some ⟨504, [("error", "request timed out")]⟩ ∧
    (timeoutGuardRun ⟨50, none⟩ (RaceResult.timedOutBeforeWrite true)
        ⟨200, [("status", "completed")]⟩).1.commits = 1 ∧
    (timeoutGuardRun ⟨50, none⟩ RaceResult.timedOutAfterWrite
        ⟨200, [("status", "completed")]⟩).2 = GuardReturn.ctxErr := by
  have h := timeoutGuard_single_commit ⟨50, none⟩ (RaceResult.timedOutBeforeWrite true)
    ⟨200, [("status", "completed")]⟩
  have h2 := timeoutGuard_single_commit ⟨50, none⟩ RaceResult.timedOutAfterWrite
    ⟨200, [("status", "completed")]⟩
  have hb := h.2.1 true rfl
  refine ⟨?_, hb.2.1, (h2.2.2.1 rfl).2.2⟩
  rw [hb.1, h.2.2.2.2 rfl]
